/-
Verification of the core pipeline of the Multi-Agent Financial Analysis
System (`app/core/workflow.py`, with the collaborator fallback logic of
`app/agents/evaluator.py` and `app/agents/insights.py`).

Modelling conventions (shallow embedding):
* Python floats are modelled as exact rationals (`ℚ`); decimal literals
  such as `0.30` denote the exact rational 3/10.
* Python dicts with a fixed key set are modelled as structures.  A key
  that may be absent (looked up with `dict.get`) becomes an `Option`
  field, with `none` meaning "key absent"; `d.get(k, default)` becomes
  `field.getD default`.
* Producer results (`DomainResult`) are modelled with exactly the fields
  the core workflow reads; the code never reads any other key of those
  dicts, so unread producer fields cannot influence the embedded
  functions.
* External calls (the six producer agents, the OpenAI evaluator LLM and
  the Gemini insight model) are I/O; their outcomes are passed to the
  embedded node functions as explicit parameters.  An LLM call either
  raises, or returns text whose JSON-parse outcome is modelled as an
  `Option` of the parsed fields.
* Python string formatting such as `f"({pe_ratio:.1f})"` is rendered
  through `pyFmt1`; the exact decimal rendering is presentation-only and
  no theorem depends on it, only on which messages are appended.
-/
import Mathlib

namespace FinAnalysis

/-- substring test on character lists: Python's `needle in hay`. -/
def charsContain (needle : List Char) : List Char → Bool
  | [] => needle.isEmpty
  | c :: rest => needle.isPrefixOf (c :: rest) || charsContain needle rest

/-- Python's `needle in hay` for strings. -/
def strContains (hay needle : String) : Bool :=
  charsContain needle.toList hay.toList

/-- Stands in for Python `f"{x:.1f}"`; the precise decimal rendering is
presentation-only and no claim depends on it. -/
def pyFmt1 (q : ℚ) : String := toString q

/-- `market_data` slot: the keys of the MarketDataAgent result read by the
core (`pe_ratio`, `profit_margin`), plus the failure marker `error`. -/
structure MarketData where
  error : Option String := none
  pe_ratio : Option ℚ := none
  profit_margin : Option ℚ := none
deriving DecidableEq, Repr

/-- `technical_analysis` slot: keys read by the core (`trend`, `rsi`). -/
structure TechnicalAnalysis where
  error : Option String := none
  trend : Option String := none
  rsi : Option ℚ := none
deriving DecidableEq, Repr

/-- `quantitative_analysis` slot: the core only inspects `error`. -/
structure QuantitativeAnalysis where
  error : Option String := none
deriving DecidableEq, Repr

/-- `sentiment_analysis` slot: keys read by the core (`sentiment_score`). -/
structure SentimentAnalysis where
  error : Option String := none
  sentiment_score : Option ℚ := none
deriving DecidableEq, Repr

/-- `sector_analysis` slot: the core only inspects `error`. -/
structure SectorAnalysis where
  error : Option String := none
deriving DecidableEq, Repr

/-- `forecast_analysis` slot: keys read by the core
(`expected_change_percent`, `confidence_score`). -/
structure ForecastAnalysis where
  error : Option String := none
  expected_change_percent : Option ℚ := none
  confidence_score : Option ℚ := none
deriving DecidableEq, Repr

/-- The `synthesis` dict built by `synthesis_node` (lines 95–103 of
`workflow.py`).  While `synthesis_node` itself always populates every
key, `recommendation_node` reads the dict defensively with `.get`
defaults, so each key is an `Option` here (`none` = key absent). -/
structure SynthDict where
  fundamental_score : Option ℚ := none
  technical_score : Option ℚ := none
  sentiment_score : Option ℚ := none
  forecast_score : Option ℚ := none
  strengths : Option (List String) := none
  weaknesses : Option (List String) := none
  risk_factors : Option (List String) := none
deriving DecidableEq, Repr

/-- The fully-populated synthesis dict as `synthesis_node` constructs it:
all seven keys present from initialization onward. -/
structure Scorecard where
  fundamental_score : ℚ
  technical_score : ℚ
  sentiment_score : ℚ
  forecast_score : ℚ
  strengths : List String
  weaknesses : List String
  risk_factors : List String
deriving DecidableEq, Repr

/-- View a fully-populated scorecard as the synthesis dict (every key
present). -/
def Scorecard.toDict (c : Scorecard) : SynthDict where
  fundamental_score := some c.fundamental_score
  technical_score := some c.technical_score
  sentiment_score := some c.sentiment_score
  forecast_score := some c.forecast_score
  strengths := some c.strengths
  weaknesses := some c.weaknesses
  risk_factors := some c.risk_factors

/-- The `component_scores` sub-dict of the recommendation. -/
structure ComponentScores where
  fundamental : ℚ
  technical : ℚ
  sentiment : ℚ
  forecast : ℚ
deriving DecidableEq, Repr

/-- The `recommendation` dict built by `recommendation_node`
(lines 229–245).  `improved` and `improvement_areas_addressed` are the
two keys the improvement node may add later (`none` = key absent). -/
structure Recommendation where
  recommendation : String
  overall_score : ℚ
  rationale : String
  risk_level : String
  investment_horizon : String
  strengths : List String
  weaknesses : List String
  risk_factors : List String
  component_scores : ComponentScores
  ai_insights : String
  improved : Option Bool := none
  improvement_areas_addressed : Option (List String) := none
deriving DecidableEq, Repr

/-- Parsed JSON fields of an evaluator LLM response, as consumed by
`OpenAIEvaluator.evaluate` via `.get` with defaults (`none` = key absent
in the parsed object). -/
structure EvalJson where
  quality_score : Option ℚ := none
  needs_improvement : Option Bool := none
  improvement_areas : Option (List String) := none
  strengths : Option (List String) := none
  explanation : Option String := none
deriving DecidableEq, Repr

/-- The `evaluation` dict returned by `OpenAIEvaluator.evaluate`; the
three fallback shapes and the success shape populate different subsets
of the optional keys. -/
structure Evaluation where
  available : Bool
  message : Option String := none
  evaluator : Option String := none
  error : Option String := none
  quality_score : ℚ
  needs_improvement : Bool
  improvement_areas : List String
  strengths : Option (List String) := none
  explanation : Option String := none
deriving DecidableEq, Repr

/-- The `AnalysisState` TypedDict of `app/core/state.py`. -/
structure AnalysisState where
  symbol : String
  company_name : String
  market_data : Option MarketData
  technical_analysis : Option TechnicalAnalysis
  quantitative_analysis : Option QuantitativeAnalysis
  sentiment_analysis : Option SentimentAnalysis
  sector_analysis : Option SectorAnalysis
  forecast_analysis : Option ForecastAnalysis
  synthesis : Option SynthDict
  recommendation : Option Recommendation
  evaluation : Option Evaluation
  needs_improvement : Bool
  improvement_areas : List String
  timestamp : String
  workflow_stage : String
  errors : List String
  quality_score : ℚ
deriving DecidableEq, Repr

/-! ## Synthesis engine (`synthesis_node`, workflow.py lines 91–170) -/

/-- The initial synthesis dict of lines 95–103: all four scores at the
neutral baseline 0.5 and empty narrative lists. -/
def initScorecard : Scorecard where
  fundamental_score := 0.5
  technical_score := 0.5
  sentiment_score := 0.5
  forecast_score := 0.5
  strengths := []
  weaknesses := []
  risk_factors := []

/-- "Process market data" (lines 105–120).  Python's
`if pe_ratio and pe_ratio > 0` is truthiness followed by a sign test,
i.e. the key is present and its value is strictly positive. -/
def processMarket (md : MarketData) (syn : Scorecard) : Scorecard :=
  if md.error.isSome then syn else
    let syn :=
      match md.pe_ratio with
      | some pe =>
        if 0 < pe then
          if pe < 15 then
            { syn with fundamental_score := syn.fundamental_score + 0.2,
                       strengths := syn.strengths ++
                         ["Attractive P/E ratio (" ++ pyFmt1 pe ++ ")"] }
          else if 30 < pe then
            { syn with fundamental_score := syn.fundamental_score - 0.2,
                       risk_factors := syn.risk_factors ++
                         ["High P/E ratio (" ++ pyFmt1 pe ++ ")"] }
          else syn
        else syn
      | none => syn
    match md.profit_margin with
    | some pm =>
      if 0.2 < pm then
        { syn with fundamental_score := syn.fundamental_score + 0.1,
                   strengths := syn.strengths ++
                     ["High profit margin (" ++ pyFmt1 (pm * 100) ++ "%)"] }
      else syn
    | none => syn

/-- "Process technical analysis" (lines 122–137). -/
def processTechnical (t : TechnicalAnalysis) (syn : Scorecard) : Scorecard :=
  if t.error.isSome then syn else
    let trend := t.trend.getD "neutral"
    let syn :=
      if strContains trend "uptrend" then
        { syn with technical_score := syn.technical_score + 0.25,
                   strengths := syn.strengths ++ ["Bullish trend: " ++ trend] }
      else if strContains trend "downtrend" then
        { syn with technical_score := syn.technical_score - 0.25,
                   weaknesses := syn.weaknesses ++ ["Bearish trend: " ++ trend] }
      else syn
    let rsi := t.rsi.getD 50
    if rsi < 30 then
      { syn with strengths := syn.strengths ++
                   ["RSI oversold - potential buy (" ++ pyFmt1 rsi ++ ")"] }
    else if 70 < rsi then
      { syn with risk_factors := syn.risk_factors ++
                   ["RSI overbought (" ++ pyFmt1 rsi ++ ")"] }
    else syn

/-- "Process sentiment" (lines 139–147): the slot's aggregate score is
copied into the scorecard directly, with no clamping. -/
def processSentiment (se : SentimentAnalysis) (syn : Scorecard) : Scorecard :=
  if se.error.isSome then syn else
    let score := se.sentiment_score.getD 0.5
    let syn := { syn with sentiment_score := score }
    if 0.6 < score then
      { syn with strengths := syn.strengths ++ ["Positive market sentiment"] }
    else if score < 0.4 then
      { syn with risk_factors := syn.risk_factors ++ ["Negative market sentiment"] }
    else syn

/-- "Process forecast" (lines 149–162). -/
def processForecast (fc : ForecastAnalysis) (syn : Scorecard) : Scorecard :=
  if fc.error.isSome then syn else
    let expected := fc.expected_change_percent.getD 0
    let confidence := fc.confidence_score.getD 0
    if 5 < expected ∧ 0.6 < confidence then
      { syn with forecast_score := 0.8,
                 strengths := syn.strengths ++
                   ["Strong forecast: +" ++ pyFmt1 expected ++ "% predicted"] }
    else if expected < -5 ∧ 0.6 < confidence then
      { syn with forecast_score := 0.2,
                 risk_factors := syn.risk_factors ++
                   ["Bearish forecast: " ++ pyFmt1 expected ++ "% predicted"] }
    else
      { syn with forecast_score := 0.5 }

/-- "Cap scores" (lines 164–166): only `fundamental_score` and
`technical_score` are clamped. -/
def capScores (syn : Scorecard) : Scorecard :=
  { syn with fundamental_score := max 0 (min 1 syn.fundamental_score),
             technical_score := max 0 (min 1 syn.technical_score) }

/-- The pure scorecard computation of `synthesis_node`: a slot whose key
is absent behaves as the empty dict (`state.get(slot, {})`), which has
no `error` key and no data keys. -/
def synthesize (s : AnalysisState) : Scorecard :=
  capScores
    (processForecast (s.forecast_analysis.getD {})
      (processSentiment (s.sentiment_analysis.getD {})
        (processTechnical (s.technical_analysis.getD {})
          (processMarket (s.market_data.getD {}) initScorecard))))

/-- `synthesis_node` (lines 91–170). -/
def synthesis_node (s : AnalysisState) : AnalysisState :=
  { s with synthesis := some (synthesize s).toDict,
           workflow_stage := "synthesis_complete" }

/-! ## Insight generator (`GeminiInsightsGenerator.generate_insights`,
insights.py lines 33–69) -/

/-- Outcome of the external Gemini model call inside the `try` block:
either the response text, or the exception message when the call
raises. -/
inductive GeminiCall where
  | ok (text : String)
  | failed (msg : String)
deriving DecidableEq, Repr

/-- `generate_insights` given the generator's availability flag and the
outcome of the external model call.  The prompt built from the state
only feeds the external model, whose response is the explicit
parameter. -/
def generate_insights (available : Bool) (call : GeminiCall) : String :=
  if !available then
    "Gemini insights not available - API key not configured"
  else
    match call with
    | .ok t => t
    | .failed e => "Insights generation failed: " ++ e

/-! ## Recommendation engine (`recommendation_node`, workflow.py
lines 173–248) -/

/-- Lines 180–185: the composite ("overall") score as the weighted sum
of the four component scores, each defaulting to 0.5 when its key is
absent. -/
def overallScore (synthesis : SynthDict) : ℚ :=
  synthesis.fundamental_score.getD 0.5 * 0.30 +
  synthesis.technical_score.getD 0.5 * 0.25 +
  synthesis.sentiment_score.getD 0.5 * 0.15 +
  synthesis.forecast_score.getD 0.5 * 0.30

/-- Lines 188–202 (recommendation branch labels): thresholds evaluated
high to low. -/
def classifyScore (c : ℚ) : String :=
  if 0.7 < c then "STRONG BUY"
  else if 0.6 < c then "BUY"
  else if 0.45 < c then "HOLD"
  else if 0.35 < c then "SELL"
  else "STRONG SELL"

/-- Lines 188–202 (rationale strings of the same branches). -/
def rationaleFor (c : ℚ) : String :=
  if 0.7 < c then
    "Exceptional performance across all indicators with strong fundamentals and positive forecast"
  else if 0.6 < c then
    "Strong overall performance with favorable fundamentals and technical signals"
  else if 0.45 < c then
    "Mixed signals suggest maintaining current position"
  else if 0.35 < c then
    "Weakness across indicators suggests reducing exposure"
  else
    "Multiple negative indicators and significant risks"

/-- Lines 205–213: risk level from the count of risk factors. -/
def riskLevelFor (risk_count : ℕ) : String :=
  if 5 ≤ risk_count then "VERY HIGH"
  else if 3 ≤ risk_count then "HIGH"
  else if 1 ≤ risk_count then "MEDIUM"
  else "LOW"

/-- Lines 216–221: investment horizon from composite score and risk
level. -/
def horizonFor (c : ℚ) (risk_level : String) : String :=
  if 0.65 < c ∧ (risk_level = "LOW" ∨ risk_level = "MEDIUM") then
    "Long-term (1+ years)"
  else if 0.5 < c then
    "Medium-term (3-12 months)"
  else
    "Short-term or avoid"

/-- `recommendation_node`: `available` is the insight generator's
availability flag, `call` the outcome of the Gemini call (only consulted
when available). -/
def recommendation_node (available : Bool) (call : GeminiCall)
    (s : AnalysisState) : AnalysisState :=
  let synthesis := s.synthesis.getD {}
  let overall_score := overallScore synthesis
  let recommendation := classifyScore overall_score
  let rationale := rationaleFor overall_score
  let risk_count := (synthesis.risk_factors.getD []).length
  let risk_level := riskLevelFor risk_count
  let investment_horizon := horizonFor overall_score risk_level
  let gemini_insights :=
    if available then generate_insights available call else ""
  { s with
    recommendation := some
      { recommendation := recommendation
        overall_score := overall_score
        rationale := rationale
        risk_level := risk_level
        investment_horizon := investment_horizon
        strengths := synthesis.strengths.getD []
        weaknesses := synthesis.weaknesses.getD []
        risk_factors := synthesis.risk_factors.getD []
        component_scores :=
          { fundamental := synthesis.fundamental_score.getD 0.5
            technical := synthesis.technical_score.getD 0.5
            sentiment := synthesis.sentiment_score.getD 0.5
            forecast := synthesis.forecast_score.getD 0.5 }
        ai_insights := gemini_insights }
    workflow_stage := "recommendation_complete" }

/-! ## Quality gate (`OpenAIEvaluator.evaluate`, evaluator.py
lines 22–134, and `evaluation_node`, workflow.py lines 251–262) -/

/-- Outcome of the external OpenAI call inside the `try` block: either
the call raises with some message, or it returns text whose JSON-parse
outcome (`_extract_json`'s three parse attempts) is `parsed`
(`none` = nothing in the text parses as JSON). -/
inductive LLMCall where
  | raised (msg : String)
  | returned (parsed : Option EvalJson)
deriving DecidableEq, Repr

/-- `_extract_json` (evaluator.py lines 103–134), given the parse
outcome of the three attempts: on failure, the hard-coded fallback
object. -/
def extract_json (parsed : Option EvalJson) : EvalJson :=
  match parsed with
  | some j => j
  | none =>
    { quality_score := some 0.5
      needs_improvement := some false
      improvement_areas := some []
      strengths := some []
      explanation := some "Failed to parse evaluation response" }

/-- `OpenAIEvaluator.evaluate` (lines 22–101), given the availability
flag and the outcome of the external LLM call. -/
def evaluate (available : Bool) (call : LLMCall) : Evaluation :=
  if !available then
    { available := false
      message := some "OpenAI API key not configured"
      quality_score := 0.5
      needs_improvement := false
      improvement_areas := [] }
  else
    match call with
    | .raised e =>
      { available := false
        error := some e
        quality_score := 0.5
        needs_improvement := false
        improvement_areas := [] }
    | .returned parsed =>
      let result := extract_json parsed
      { available := true
        evaluator := some "OpenAI GPT-4"
        quality_score := result.quality_score.getD 0.5
        needs_improvement := result.needs_improvement.getD false
        improvement_areas := result.improvement_areas.getD []
        strengths := some (result.strengths.getD [])
        explanation := some (result.explanation.getD "") }

/-- `evaluation_node` (workflow.py lines 251–262). -/
def evaluation_node (available : Bool) (call : LLMCall)
    (s : AnalysisState) : AnalysisState :=
  let evaluation := evaluate available call
  { s with evaluation := some evaluation
           quality_score := evaluation.quality_score
           needs_improvement := evaluation.needs_improvement
           improvement_areas := evaluation.improvement_areas
           workflow_stage := "evaluation_complete" }

/-- `should_improve` (lines 265–269). -/
def should_improve (s : AnalysisState) : String :=
  if s.needs_improvement then "improve" else "complete"

/-- `improvement_node` (lines 272–287): annotates the existing
recommendation, re-invoking no producer. -/
def improvement_node (s : AnalysisState) : AnalysisState :=
  let improvement_areas := s.improvement_areas
  let s :=
    match s.recommendation with
    | some r =>
      let annotated := { r with improved := some true,
                                improvement_areas_addressed := some improvement_areas }
      { s with recommendation := some annotated }
    | none => s
  { s with workflow_stage := "improvement_complete" }

/-! ## Producer nodes (workflow.py lines 25–88)

Each node invokes its external agent and writes the returned
`DomainResult` into the matching slot; the agent's result is the
explicit parameter. -/

/-- `market_data_node` (lines 25–33). -/
def market_data_node (result : MarketData) (s : AnalysisState) : AnalysisState :=
  let s := { s with market_data := some result,
                    workflow_stage := "market_data_complete" }
  match result.error with
  | some e => { s with errors := s.errors ++ ["Market Data: " ++ e] }
  | none => s

/-- `technical_analysis_node` (lines 36–44). -/
def technical_analysis_node (result : TechnicalAnalysis) (s : AnalysisState) :
    AnalysisState :=
  let s := { s with technical_analysis := some result,
                    workflow_stage := "technical_complete" }
  match result.error with
  | some e => { s with errors := s.errors ++ ["Technical: " ++ e] }
  | none => s

/-- `quantitative_analysis_node` (lines 47–55). -/
def quantitative_analysis_node (result : QuantitativeAnalysis)
    (s : AnalysisState) : AnalysisState :=
  let s := { s with quantitative_analysis := some result,
                    workflow_stage := "quantitative_complete" }
  match result.error with
  | some e => { s with errors := s.errors ++ ["Quantitative: " ++ e] }
  | none => s

/-- `sentiment_analysis_node` (lines 58–66). -/
def sentiment_analysis_node (result : SentimentAnalysis) (s : AnalysisState) :
    AnalysisState :=
  let s := { s with sentiment_analysis := some result,
                    workflow_stage := "sentiment_complete" }
  match result.error with
  | some e => { s with errors := s.errors ++ ["Sentiment: " ++ e] }
  | none => s

/-- `sector_analysis_node` (lines 69–77). -/
def sector_analysis_node (result : SectorAnalysis) (s : AnalysisState) :
    AnalysisState :=
  let s := { s with sector_analysis := some result,
                    workflow_stage := "sector_complete" }
  match result.error with
  | some e => { s with errors := s.errors ++ ["Sector: " ++ e] }
  | none => s

/-- `forecast_analysis_node` (lines 80–88). -/
def forecast_analysis_node (result : ForecastAnalysis) (s : AnalysisState) :
    AnalysisState :=
  let s := { s with forecast_analysis := some result,
                    workflow_stage := "forecast_complete" }
  match result.error with
  | some e => { s with errors := s.errors ++ ["Forecast: " ++ e] }
  | none => s

/-! ## Compiled workflow (`create_analysis_workflow`, lines 294–336)

The graph is a fixed chain market → technical → quantitative →
sentiment → sector → forecast → synthesis → recommendation →
evaluation, followed by the single conditional edge keyed on
`should_improve` ("improve" → improvement → END, "complete" → END). -/

/-- The six external producer results of one run. -/
structure ProducerResults where
  market : MarketData
  technical : TechnicalAnalysis
  quantitative : QuantitativeAnalysis
  sentiment : SentimentAnalysis
  sector : SectorAnalysis
  forecast : ForecastAnalysis
deriving DecidableEq, Repr

/-- Outcomes of the external collaborator calls of one run: the insight
generator's availability and call outcome, and the evaluator's
availability and call outcome. -/
structure CollabOutcomes where
  insights_available : Bool
  insights_call : GeminiCall
  eval_available : Bool
  eval_call : LLMCall
deriving DecidableEq, Repr

/-- The six producer stages in graph order (edges of lines 315–320). -/
def producersChain (pr : ProducerResults) (s : AnalysisState) : AnalysisState :=
  forecast_analysis_node pr.forecast
    (sector_analysis_node pr.sector
      (sentiment_analysis_node pr.sentiment
        (quantitative_analysis_node pr.quantitative
          (technical_analysis_node pr.technical
            (market_data_node pr.market s)))))

/-- The chain up to and including the evaluation node (every run
executes these nine nodes unconditionally). -/
def runToEvaluation (pr : ProducerResults) (co : CollabOutcomes)
    (s : AnalysisState) : AnalysisState :=
  evaluation_node co.eval_available co.eval_call
    (recommendation_node co.insights_available co.insights_call
      (synthesis_node (producersChain pr s)))

/-- One invocation of the compiled graph: the chain, then the
conditional edge out of evaluation. -/
def run_workflow (pr : ProducerResults) (co : CollabOutcomes)
    (s : AnalysisState) : AnalysisState :=
  let s9 := runToEvaluation pr co s
  if should_improve s9 = "improve" then improvement_node s9 else s9

/-! ## Top-level entry (`analyze_stock`, lines 343–434) -/

/-- The initial state of lines 368–386 (`timestamp` abstracts
`datetime.now().isoformat()`). -/
def initial_state (symbol ts : String) : AnalysisState where
  symbol := symbol
  company_name := ""
  market_data := none
  technical_analysis := none
  quantitative_analysis := none
  sentiment_analysis := none
  sector_analysis := none
  forecast_analysis := none
  synthesis := none
  recommendation := none
  evaluation := none
  needs_improvement := false
  improvement_areas := []
  timestamp := ts
  workflow_stage := "initialized"
  errors := []
  quality_score := 0

/-- The result dict of lines 395–417 (timestamps and duration abstracted
to the `ts` strings threaded in). -/
structure AnalysisReport where
  symbol : String
  workflow_type : String
  market_data : Option MarketData
  technical_analysis : Option TechnicalAnalysis
  quantitative_analysis : Option QuantitativeAnalysis
  sentiment_analysis : Option SentimentAnalysis
  sector_analysis : Option SectorAnalysis
  forecast_analysis : Option ForecastAnalysis
  synthesis : Option SynthDict
  recommendation : Option Recommendation
  evaluation : Option Evaluation
  quality_score : ℚ
  needs_improvement : Bool
  improvement_areas : List String
  errors : List String
  metadata_workflow_stage : String
deriving DecidableEq, Repr

/-- The minimal error report of lines 429–433: exactly the error
message, the identifier and a timestamp. -/
structure ErrorReport where
  error : String
  symbol : String
  timestamp : String
deriving DecidableEq, Repr

/-- Return value of `analyze_stock`: a populated report, or — only on an
unexpected internal fault — the minimal error report. -/
inductive StockReport where
  | ok (r : AnalysisReport)
  | err (e : ErrorReport)
deriving DecidableEq, Repr

/-- Lines 395–417: package the final state into the result dict. -/
def buildReport (symbol : String) (final : AnalysisState) : AnalysisReport where
  symbol := symbol
  workflow_type := "langgraph"
  market_data := final.market_data
  technical_analysis := final.technical_analysis
  quantitative_analysis := final.quantitative_analysis
  sentiment_analysis := final.sentiment_analysis
  sector_analysis := final.sector_analysis
  forecast_analysis := final.forecast_analysis
  synthesis := final.synthesis
  recommendation := final.recommendation
  evaluation := final.evaluation
  quality_score := final.quality_score
  needs_improvement := final.needs_improvement
  improvement_areas := final.improvement_areas
  errors := final.errors
  metadata_workflow_stage := final.workflow_stage

/-- `analyze_stock` (lines 343–434).  `invoke` is the execution of the
compiled graph on the initial state inside the `try` block: `.ok` a
final state, or `.error` the message of an unexpected internal fault
(a producer-reported domain failure is not a fault — the nodes absorb
it into the state's `errors` list). -/
def analyze_stock (symbol ts : String)
    (invoke : AnalysisState → Except String AnalysisState) : StockReport :=
  match invoke (initial_state symbol ts) with
  | .error e => .err { error := e, symbol := symbol, timestamp := ts }
  | .ok final => .ok (buildReport symbol final)

/-! ## Derived notions used by the statements below -/

/-- The stage-tagged message a node appends when its producer result
carries a failure marker (`state['errors'].append(f"Tag: {...}")`). -/
def optTag (tag : String) (e : Option String) : List String :=
  match e with
  | some m => [tag ++ ": " ++ m]
  | none => []

/-- All stage-tagged error messages of one run, in stage order. -/
def taggedErrors (pr : ProducerResults) : List String :=
  optTag "Market Data" pr.market.error ++
  optTag "Technical" pr.technical.error ++
  optTag "Quantitative" pr.quantitative.error ++
  optTag "Sentiment" pr.sentiment.error ++
  optTag "Sector" pr.sector.error ++
  optTag "Forecast" pr.forecast.error

/-- How many of the six producer results carry a failure marker. -/
def failCount (pr : ProducerResults) : ℕ :=
  [pr.market.error.isSome, pr.technical.error.isSome,
   pr.quantitative.error.isSome, pr.sentiment.error.isSome,
   pr.sector.error.isSome, pr.forecast.error.isSome].count true

/-- The fundamental-score adjustment driven by the valuation ratio
(lines 108–115): only a present, strictly positive P/E triggers an
adjustment. -/
def peAdjust (pe : Option ℚ) : ℚ :=
  match pe with
  | some pe => if 0 < pe ∧ pe < 15 then 0.2 else if 30 < pe then -0.2 else 0
  | none => 0

/-- The fundamental-score adjustment driven by the profit margin
(lines 117–119). -/
def marginAdjust (pm : Option ℚ) : ℚ :=
  match pm with
  | some pm => if 0.2 < pm then 0.1 else 0
  | none => 0

/-- The evaluator collaborator is degraded: not configured, the call
raised, or the call returned text with no parseable JSON. -/
def evalDegraded (available : Bool) (call : LLMCall) : Prop :=
  available = false ∨ (∃ e, call = .raised e) ∨ call = .returned none

/-- The insight collaborator is degraded: not configured, or the call
raised. -/
def insightDegraded (available : Bool) (call : GeminiCall) : Prop :=
  available = false ∨ (∃ m, call = .failed m)

/-- The annotation the improvement node puts on the existing
recommendation (lines 283–284): the two added keys and nothing else. -/
def annotateRecommendation (r : Recommendation) (areas : List String) :
    Recommendation :=
  { r with improved := some true, improvement_areas_addressed := some areas }

/-! ## Concrete inputs used by witnesses and counterexamples -/

def sampleTs : String := "2026-02-03T04:05:06"

def baseState : AnalysisState := initial_state "AAPL" sampleTs

/-- A synthesis dict whose four component scores all equal `q`. -/
def synthAll (q : ℚ) : SynthDict where
  fundamental_score := some q
  technical_score := some q
  sentiment_score := some q
  forecast_score := some q
  strengths := some []
  weaknesses := some []
  risk_factors := some []

/-- Six producer successes carrying no data fields. -/
def okProducers : ProducerResults where
  market := {}
  technical := {}
  quantitative := {}
  sentiment := {}
  sector := {}
  forecast := {}

/-- Only the market-data producer fails. -/
def marketFailProducers : ProducerResults :=
  { okProducers with market := { error := some "API timeout" } }

/-- All six producers fail. -/
def allFailProducers : ProducerResults where
  market := { error := some "no data" }
  technical := { error := some "no data" }
  quantitative := { error := some "no data" }
  sentiment := { error := some "no data" }
  sector := { error := some "no data" }
  forecast := { error := some "no data" }

/-- Collaborators absent: no insight generator, no evaluator. -/
def quietCollab : CollabOutcomes where
  insights_available := false
  insights_call := .ok ""
  eval_available := false
  eval_call := .returned none

/-- A market-data success with a negative P/E ratio. -/
def negPeMarket : MarketData where
  error := none
  pe_ratio := some (-5)
  profit_margin := none

/-- A run record whose market slot holds `negPeMarket`. -/
def negPeState : AnalysisState :=
  { baseState with market_data := some negPeMarket }

/-- A market-data success with a cheap P/E and a high margin. -/
def cheapMarket : MarketData where
  error := none
  pe_ratio := some 10
  profit_margin := some 0.25

/-- A run record whose market slot holds `cheapMarket`. -/
def cheapMarketState : AnalysisState :=
  { baseState with market_data := some cheapMarket }

/-- An evaluator verdict requesting improvement in two areas. -/
def improveJson : EvalJson where
  quality_score := some 0.8
  needs_improvement := some true
  improvement_areas := some ["depth", "sources"]
  strengths := some []
  explanation := some "needs work"

/-- Collaborators present; the evaluator requests improvement. -/
def improveCollab : CollabOutcomes where
  insights_available := false
  insights_call := .ok ""
  eval_available := true
  eval_call := .returned (some improveJson)

/-! ## Helper lemmas: normal forms of the producer nodes -/

theorem market_data_node_eq (r : MarketData) (s : AnalysisState) :
    market_data_node r s =
      { s with market_data := some r,
               workflow_stage := "market_data_complete",
               errors := s.errors ++ optTag "Market Data" r.error } := by
  cases h : r.error <;> simp [market_data_node, optTag, h]

theorem technical_analysis_node_eq (r : TechnicalAnalysis) (s : AnalysisState) :
    technical_analysis_node r s =
      { s with technical_analysis := some r,
               workflow_stage := "technical_complete",
               errors := s.errors ++ optTag "Technical" r.error } := by
  cases h : r.error <;> simp [technical_analysis_node, optTag, h]

theorem quantitative_analysis_node_eq (r : QuantitativeAnalysis)
    (s : AnalysisState) :
    quantitative_analysis_node r s =
      { s with quantitative_analysis := some r,
               workflow_stage := "quantitative_complete",
               errors := s.errors ++ optTag "Quantitative" r.error } := by
  cases h : r.error <;> simp [quantitative_analysis_node, optTag, h]

theorem sentiment_analysis_node_eq (r : SentimentAnalysis) (s : AnalysisState) :
    sentiment_analysis_node r s =
      { s with sentiment_analysis := some r,
               workflow_stage := "sentiment_complete",
               errors := s.errors ++ optTag "Sentiment" r.error } := by
  cases h : r.error <;> simp [sentiment_analysis_node, optTag, h]

theorem sector_analysis_node_eq (r : SectorAnalysis) (s : AnalysisState) :
    sector_analysis_node r s =
      { s with sector_analysis := some r,
               workflow_stage := "sector_complete",
               errors := s.errors ++ optTag "Sector" r.error } := by
  cases h : r.error <;> simp [sector_analysis_node, optTag, h]

theorem forecast_analysis_node_eq (r : ForecastAnalysis) (s : AnalysisState) :
    forecast_analysis_node r s =
      { s with forecast_analysis := some r,
               workflow_stage := "forecast_complete",
               errors := s.errors ++ optTag "Forecast" r.error } := by
  cases h : r.error <;> simp [forecast_analysis_node, optTag, h]

theorem producersChain_eq (pr : ProducerResults) (s : AnalysisState) :
    producersChain pr s =
      { s with market_data := some pr.market,
               technical_analysis := some pr.technical,
               quantitative_analysis := some pr.quantitative,
               sentiment_analysis := some pr.sentiment,
               sector_analysis := some pr.sector,
               forecast_analysis := some pr.forecast,
               workflow_stage := "forecast_complete",
               errors := s.errors ++ taggedErrors pr } := by
  simp only [producersChain, market_data_node_eq, technical_analysis_node_eq,
    quantitative_analysis_node_eq, sentiment_analysis_node_eq,
    sector_analysis_node_eq, forecast_analysis_node_eq, taggedErrors,
    List.append_assoc]

/-! ## Helper lemmas: the scorecard computation -/

theorem processMarket_frame (md : MarketData) (syn : Scorecard) :
    (processMarket md syn).technical_score = syn.technical_score ∧
    (processMarket md syn).sentiment_score = syn.sentiment_score ∧
    (processMarket md syn).forecast_score = syn.forecast_score ∧
    (processMarket md syn).weaknesses = syn.weaknesses := by
  unfold processMarket
  rcases md with ⟨err, pe, pm⟩
  cases err <;> cases pe <;> cases pm <;> dsimp only <;> split_ifs <;>
    exact ⟨rfl, rfl, rfl, rfl⟩

theorem processMarket_error (md : MarketData) (syn : Scorecard)
    (h : md.error.isSome) : processMarket md syn = syn := by
  unfold processMarket
  rw [if_pos h]

theorem processMarket_fundamental (md : MarketData) (syn : Scorecard)
    (he : md.error = none) :
    (processMarket md syn).fundamental_score =
      syn.fundamental_score + peAdjust md.pe_ratio +
        marginAdjust md.profit_margin := by
  unfold processMarket peAdjust marginAdjust
  rcases md with ⟨err, pe, pm⟩
  cases err
  · cases pe <;> cases pm <;> dsimp only <;> split_ifs <;>
      first
      | rfl
      | (exfalso; simp_all; done)
      | (exfalso; simp_all; linarith)
      | ring
  · simp at he

theorem processMarket_str_mono (md : MarketData) (syn : Scorecard) (x : String)
    (hx : x ∈ syn.strengths) : x ∈ (processMarket md syn).strengths := by
  unfold processMarket
  rcases md with ⟨err, pe, pm⟩
  cases err <;> cases pe <;> cases pm <;> dsimp only <;> split_ifs <;>
    simp_all

theorem processMarket_risk_mono (md : MarketData) (syn : Scorecard) (x : String)
    (hx : x ∈ syn.risk_factors) : x ∈ (processMarket md syn).risk_factors := by
  unfold processMarket
  rcases md with ⟨err, pe, pm⟩
  cases err <;> cases pe <;> cases pm <;> dsimp only <;> split_ifs <;>
    simp_all

theorem processMarket_pe_strength (md : MarketData) (syn : Scorecard) (pe : ℚ)
    (he : md.error = none) (hpe : md.pe_ratio = some pe)
    (h0 : 0 < pe) (h15 : pe < 15) :
    ("Attractive P/E ratio (" ++ pyFmt1 pe ++ ")") ∈
      (processMarket md syn).strengths := by
  unfold processMarket
  rcases md with ⟨err, pe0, pm⟩
  cases err
  · simp only at hpe
    subst hpe
    cases pm <;> dsimp only <;> split_ifs <;> simp_all
  · simp at he

theorem processMarket_pe_risk (md : MarketData) (syn : Scorecard) (pe : ℚ)
    (he : md.error = none) (hpe : md.pe_ratio = some pe) (h30 : 30 < pe) :
    ("High P/E ratio (" ++ pyFmt1 pe ++ ")") ∈
      (processMarket md syn).risk_factors := by
  unfold processMarket
  rcases md with ⟨err, pe0, pm⟩
  cases err
  · simp only at hpe
    subst hpe
    cases pm <;> dsimp only <;> split_ifs <;> simp_all <;> linarith
  · simp at he

theorem processMarket_margin_strength (md : MarketData) (syn : Scorecard)
    (pm : ℚ) (he : md.error = none) (hpm : md.profit_margin = some pm)
    (h : 0.2 < pm) :
    ("High profit margin (" ++ pyFmt1 (pm * 100) ++ "%)") ∈
      (processMarket md syn).strengths := by
  unfold processMarket
  rcases md with ⟨err, pe, pm0⟩
  cases err
  · simp only at hpm
    subst hpm
    cases pe <;> dsimp only <;> split_ifs <;> simp_all
  · simp at he

theorem processTechnical_frame (t : TechnicalAnalysis) (syn : Scorecard) :
    (processTechnical t syn).fundamental_score = syn.fundamental_score ∧
    (processTechnical t syn).sentiment_score = syn.sentiment_score ∧
    (processTechnical t syn).forecast_score = syn.forecast_score := by
  unfold processTechnical
  dsimp only
  split_ifs <;> exact ⟨rfl, rfl, rfl⟩

theorem processTechnical_error (t : TechnicalAnalysis) (syn : Scorecard)
    (h : t.error.isSome) : processTechnical t syn = syn := by
  unfold processTechnical
  rw [if_pos h]

theorem processTechnical_str_mono (t : TechnicalAnalysis) (syn : Scorecard)
    (x : String) (hx : x ∈ syn.strengths) :
    x ∈ (processTechnical t syn).strengths := by
  unfold processTechnical
  dsimp only
  split_ifs <;> simp_all

theorem processTechnical_risk_mono (t : TechnicalAnalysis) (syn : Scorecard)
    (x : String) (hx : x ∈ syn.risk_factors) :
    x ∈ (processTechnical t syn).risk_factors := by
  unfold processTechnical
  dsimp only
  split_ifs <;> simp_all

theorem processSentiment_frame (se : SentimentAnalysis) (syn : Scorecard) :
    (processSentiment se syn).fundamental_score = syn.fundamental_score ∧
    (processSentiment se syn).technical_score = syn.technical_score ∧
    (processSentiment se syn).forecast_score = syn.forecast_score := by
  unfold processSentiment
  dsimp only
  split_ifs <;> exact ⟨rfl, rfl, rfl⟩

theorem processSentiment_error (se : SentimentAnalysis) (syn : Scorecard)
    (h : se.error.isSome) : processSentiment se syn = syn := by
  unfold processSentiment
  rw [if_pos h]

theorem processSentiment_score (se : SentimentAnalysis) (syn : Scorecard)
    (he : se.error = none) :
    (processSentiment se syn).sentiment_score =
      se.sentiment_score.getD 0.5 := by
  unfold processSentiment
  rw [if_neg (by simp [he])]
  dsimp only
  split_ifs <;> rfl

theorem processSentiment_str_mono (se : SentimentAnalysis) (syn : Scorecard)
    (x : String) (hx : x ∈ syn.strengths) :
    x ∈ (processSentiment se syn).strengths := by
  unfold processSentiment
  dsimp only
  split_ifs <;> simp_all

theorem processSentiment_risk_mono (se : SentimentAnalysis) (syn : Scorecard)
    (x : String) (hx : x ∈ syn.risk_factors) :
    x ∈ (processSentiment se syn).risk_factors := by
  unfold processSentiment
  dsimp only
  split_ifs <;> simp_all

theorem processForecast_frame (fc : ForecastAnalysis) (syn : Scorecard) :
    (processForecast fc syn).fundamental_score = syn.fundamental_score ∧
    (processForecast fc syn).technical_score = syn.technical_score ∧
    (processForecast fc syn).sentiment_score = syn.sentiment_score := by
  unfold processForecast
  dsimp only
  split_ifs <;> exact ⟨rfl, rfl, rfl⟩

theorem processForecast_error (fc : ForecastAnalysis) (syn : Scorecard)
    (h : fc.error.isSome) : processForecast fc syn = syn := by
  unfold processForecast
  rw [if_pos h]

theorem processForecast_score_cases (fc : ForecastAnalysis) (syn : Scorecard) :
    (processForecast fc syn).forecast_score = syn.forecast_score ∨
    (processForecast fc syn).forecast_score = 0.8 ∨
    (processForecast fc syn).forecast_score = 0.2 ∨
    (processForecast fc syn).forecast_score = 0.5 := by
  unfold processForecast
  dsimp only
  split_ifs <;> simp

theorem processForecast_str_mono (fc : ForecastAnalysis) (syn : Scorecard)
    (x : String) (hx : x ∈ syn.strengths) :
    x ∈ (processForecast fc syn).strengths := by
  unfold processForecast
  dsimp only
  split_ifs <;> simp_all

theorem processForecast_risk_mono (fc : ForecastAnalysis) (syn : Scorecard)
    (x : String) (hx : x ∈ syn.risk_factors) :
    x ∈ (processForecast fc syn).risk_factors := by
  unfold processForecast
  dsimp only
  split_ifs <;> simp_all

/-! ## Helper lemmas: the assembled scorecard -/

theorem capScores_fundamental (syn : Scorecard) :
    (capScores syn).fundamental_score = max 0 (min 1 syn.fundamental_score) :=
  rfl

theorem capScores_technical (syn : Scorecard) :
    (capScores syn).technical_score = max 0 (min 1 syn.technical_score) :=
  rfl

theorem capScores_sentiment (syn : Scorecard) :
    (capScores syn).sentiment_score = syn.sentiment_score := rfl

theorem capScores_forecast (syn : Scorecard) :
    (capScores syn).forecast_score = syn.forecast_score := rfl

theorem capScores_strengths (syn : Scorecard) :
    (capScores syn).strengths = syn.strengths := rfl

theorem capScores_risk (syn : Scorecard) :
    (capScores syn).risk_factors = syn.risk_factors := rfl

theorem synthesize_fundamental (s : AnalysisState) :
    (synthesize s).fundamental_score =
      max 0 (min 1
        ((processMarket (s.market_data.getD {}) initScorecard).fundamental_score)) := by
  unfold synthesize
  rw [capScores_fundamental, (processForecast_frame _ _).1,
    (processSentiment_frame _ _).1, (processTechnical_frame _ _).1]

theorem synthesize_technical (s : AnalysisState) :
    (synthesize s).technical_score =
      max 0 (min 1
        ((processTechnical (s.technical_analysis.getD {})
          (processMarket (s.market_data.getD {}) initScorecard)).technical_score)) := by
  unfold synthesize
  rw [capScores_technical, (processForecast_frame _ _).2.1,
    (processSentiment_frame _ _).2.1]

theorem synthesize_sentiment (s : AnalysisState) :
    (synthesize s).sentiment_score =
      (processSentiment (s.sentiment_analysis.getD {})
        (processTechnical (s.technical_analysis.getD {})
          (processMarket (s.market_data.getD {}) initScorecard))).sentiment_score := by
  unfold synthesize
  rw [capScores_sentiment, (processForecast_frame _ _).2.2]

theorem synthesize_forecast_cases (s : AnalysisState) :
    (synthesize s).forecast_score = 0.5 ∨
    (synthesize s).forecast_score = 0.8 ∨
    (synthesize s).forecast_score = 0.2 := by
  unfold synthesize
  rw [capScores_forecast]
  rcases processForecast_score_cases (s.forecast_analysis.getD {}) _ with h | h | h | h
  · left
    rw [h, (processSentiment_frame _ _).2.2, (processTechnical_frame _ _).2.2,
      (processMarket_frame _ _).2.2.1]
    rfl
  · right; left; exact h
  · right; right; exact h
  · left; exact h

theorem synthesize_strengths_mono (s : AnalysisState) (x : String)
    (hx : x ∈ (processMarket (s.market_data.getD {}) initScorecard).strengths) :
    x ∈ (synthesize s).strengths := by
  unfold synthesize
  rw [capScores_strengths]
  exact processForecast_str_mono _ _ _
    (processSentiment_str_mono _ _ _ (processTechnical_str_mono _ _ _ hx))

theorem synthesize_risk_mono (s : AnalysisState) (x : String)
    (hx : x ∈ (processMarket (s.market_data.getD {}) initScorecard).risk_factors) :
    x ∈ (synthesize s).risk_factors := by
  unfold synthesize
  rw [capScores_risk]
  exact processForecast_risk_mono _ _ _
    (processSentiment_risk_mono _ _ _ (processTechnical_risk_mono _ _ _ hx))

/-! ## Helper lemmas: the recommendation, evaluation and improvement
nodes -/

theorem classifyScore_spec (c : ℚ) :
    ((0.70 : ℚ) < c → classifyScore c = "STRONG BUY") ∧
    ((0.60 : ℚ) < c ∧ c ≤ 0.70 → classifyScore c = "BUY") ∧
    ((0.45 : ℚ) < c ∧ c ≤ 0.60 → classifyScore c = "HOLD") ∧
    ((0.35 : ℚ) < c ∧ c ≤ 0.45 → classifyScore c = "SELL") ∧
    (c ≤ (0.35 : ℚ) → classifyScore c = "STRONG SELL") := by
  refine ⟨fun hc => ?_, fun hc => ?_, fun hc => ?_, fun hc => ?_, fun hc => ?_⟩ <;>
    unfold classifyScore <;> split_ifs <;>
      first
      | rfl
      | (exfalso; linarith)

theorem recommendation_node_overall (a : Bool) (g : GeminiCall)
    (s : AnalysisState) :
    (recommendation_node a g s).recommendation.map (fun r => r.overall_score) =
      some (overallScore (s.synthesis.getD {})) := rfl

theorem recommendation_node_class (a : Bool) (g : GeminiCall)
    (s : AnalysisState) :
    (recommendation_node a g s).recommendation.map (fun r => r.recommendation) =
      some (classifyScore (overallScore (s.synthesis.getD {}))) := rfl

theorem recommendation_node_risk (a : Bool) (g : GeminiCall)
    (s : AnalysisState) :
    (recommendation_node a g s).recommendation.map (fun r => r.risk_level) =
      some (riskLevelFor ((s.synthesis.getD {}).risk_factors.getD []).length) :=
  rfl

theorem recommendation_node_horizon (a : Bool) (g : GeminiCall)
    (s : AnalysisState) :
    (recommendation_node a g s).recommendation.map
        (fun r => r.investment_horizon) =
      some (horizonFor (overallScore (s.synthesis.getD {}))
        (riskLevelFor ((s.synthesis.getD {}).risk_factors.getD []).length)) :=
  rfl

theorem recommendation_node_insights (a : Bool) (g : GeminiCall)
    (s : AnalysisState) :
    (recommendation_node a g s).recommendation.map (fun r => r.ai_insights) =
      some (if a then generate_insights a g else "") := rfl

theorem recommendation_node_components (a : Bool) (g : GeminiCall)
    (s : AnalysisState) :
    (recommendation_node a g s).recommendation.map (fun r => r.component_scores) =
      some
        { fundamental := (s.synthesis.getD {}).fundamental_score.getD 0.5
          technical := (s.synthesis.getD {}).technical_score.getD 0.5
          sentiment := (s.synthesis.getD {}).sentiment_score.getD 0.5
          forecast := (s.synthesis.getD {}).forecast_score.getD 0.5 } := rfl

/-! ## Helper lemmas: evaluation, improvement and the compiled graph -/

theorem evaluate_degraded_defaults (a : Bool) (c : LLMCall)
    (h : evalDegraded a c) :
    (evaluate a c).quality_score = 0.5 ∧
    (evaluate a c).needs_improvement = false ∧
    (evaluate a c).improvement_areas = [] := by
  rcases h with h | ⟨e, h⟩ | h
  · subst h
    simp [evaluate, extract_json]
  · subst h
    cases a <;> simp [evaluate, extract_json]
  · subst h
    cases a <;> simp [evaluate, extract_json]

theorem evaluation_node_frame (a : Bool) (c : LLMCall) (s : AnalysisState) :
    (evaluation_node a c s).recommendation = s.recommendation ∧
    (evaluation_node a c s).synthesis = s.synthesis ∧
    (evaluation_node a c s).errors = s.errors ∧
    (evaluation_node a c s).market_data = s.market_data :=
  ⟨rfl, rfl, rfl, rfl⟩

theorem evaluation_node_values (a : Bool) (c : LLMCall) (s : AnalysisState) :
    (evaluation_node a c s).needs_improvement =
      (evaluate a c).needs_improvement ∧
    (evaluation_node a c s).improvement_areas =
      (evaluate a c).improvement_areas ∧
    (evaluation_node a c s).quality_score = (evaluate a c).quality_score ∧
    (evaluation_node a c s).evaluation = some (evaluate a c) ∧
    (evaluation_node a c s).workflow_stage = "evaluation_complete" :=
  ⟨rfl, rfl, rfl, rfl, rfl⟩

theorem improvement_node_frame (s : AnalysisState) :
    (improvement_node s).market_data = s.market_data ∧
    (improvement_node s).technical_analysis = s.technical_analysis ∧
    (improvement_node s).quantitative_analysis = s.quantitative_analysis ∧
    (improvement_node s).sentiment_analysis = s.sentiment_analysis ∧
    (improvement_node s).sector_analysis = s.sector_analysis ∧
    (improvement_node s).forecast_analysis = s.forecast_analysis ∧
    (improvement_node s).synthesis = s.synthesis ∧
    (improvement_node s).evaluation = s.evaluation ∧
    (improvement_node s).errors = s.errors ∧
    (improvement_node s).quality_score = s.quality_score ∧
    (improvement_node s).improvement_areas = s.improvement_areas ∧
    (improvement_node s).needs_improvement = s.needs_improvement := by
  cases h : s.recommendation <;> simp [improvement_node, h]

theorem improvement_node_stage (s : AnalysisState) :
    (improvement_node s).workflow_stage = "improvement_complete" := by
  cases h : s.recommendation <;> simp [improvement_node, h]

theorem improvement_node_rec_some (s : AnalysisState) (r : Recommendation)
    (h : s.recommendation = some r) :
    (improvement_node s).recommendation =
      some (annotateRecommendation r s.improvement_areas) := by
  simp [improvement_node, h, annotateRecommendation]

theorem runToEvaluation_errors (pr : ProducerResults) (co : CollabOutcomes)
    (s : AnalysisState) :
    (runToEvaluation pr co s).errors = s.errors ++ taggedErrors pr := by
  show (producersChain pr s).errors = s.errors ++ taggedErrors pr
  rw [producersChain_eq]

theorem runToEvaluation_slots (pr : ProducerResults) (co : CollabOutcomes)
    (s : AnalysisState) :
    (runToEvaluation pr co s).market_data = some pr.market ∧
    (runToEvaluation pr co s).technical_analysis = some pr.technical ∧
    (runToEvaluation pr co s).quantitative_analysis = some pr.quantitative ∧
    (runToEvaluation pr co s).sentiment_analysis = some pr.sentiment ∧
    (runToEvaluation pr co s).sector_analysis = some pr.sector ∧
    (runToEvaluation pr co s).forecast_analysis = some pr.forecast := by
  refine ⟨?_, ?_, ?_, ?_, ?_, ?_⟩ <;>
    (first
     | (show (producersChain pr s).market_data = _
        rw [producersChain_eq])
     | (show (producersChain pr s).technical_analysis = _
        rw [producersChain_eq])
     | (show (producersChain pr s).quantitative_analysis = _
        rw [producersChain_eq])
     | (show (producersChain pr s).sentiment_analysis = _
        rw [producersChain_eq])
     | (show (producersChain pr s).sector_analysis = _
        rw [producersChain_eq])
     | (show (producersChain pr s).forecast_analysis = _
        rw [producersChain_eq]))

theorem runToEvaluation_synthesis (pr : ProducerResults) (co : CollabOutcomes)
    (s : AnalysisState) :
    (runToEvaluation pr co s).synthesis =
      some (synthesize (producersChain pr s)).toDict := rfl

theorem runToEvaluation_rec (pr : ProducerResults) (co : CollabOutcomes)
    (s : AnalysisState) :
    (runToEvaluation pr co s).recommendation =
      (recommendation_node co.insights_available co.insights_call
        (synthesis_node (producersChain pr s))).recommendation := rfl

theorem runToEvaluation_needs (pr : ProducerResults) (co : CollabOutcomes)
    (s : AnalysisState) :
    (runToEvaluation pr co s).needs_improvement =
      (evaluate co.eval_available co.eval_call).needs_improvement := rfl

theorem runToEvaluation_areas (pr : ProducerResults) (co : CollabOutcomes)
    (s : AnalysisState) :
    (runToEvaluation pr co s).improvement_areas =
      (evaluate co.eval_available co.eval_call).improvement_areas := rfl

theorem run_workflow_complete (pr : ProducerResults) (co : CollabOutcomes)
    (s : AnalysisState)
    (h : (evaluate co.eval_available co.eval_call).needs_improvement = false) :
    run_workflow pr co s = runToEvaluation pr co s := by
  unfold run_workflow
  rw [if_neg]
  intro hi
  rw [should_improve, runToEvaluation_needs, h] at hi
  simp at hi

theorem run_workflow_improve (pr : ProducerResults) (co : CollabOutcomes)
    (s : AnalysisState)
    (h : (evaluate co.eval_available co.eval_call).needs_improvement = true) :
    run_workflow pr co s = improvement_node (runToEvaluation pr co s) := by
  unfold run_workflow
  rw [if_pos]
  rw [should_improve, runToEvaluation_needs, h]
  simp

theorem run_workflow_stage (pr : ProducerResults) (co : CollabOutcomes)
    (s : AnalysisState) :
    (run_workflow pr co s).workflow_stage = "evaluation_complete" ∨
    (run_workflow pr co s).workflow_stage = "improvement_complete" := by
  cases hb : (evaluate co.eval_available co.eval_call).needs_improvement
  · left
    rw [run_workflow_complete pr co s hb]
    rfl
  · right
    rw [run_workflow_improve pr co s hb, improvement_node_stage]

theorem run_workflow_errors (pr : ProducerResults) (co : CollabOutcomes)
    (s : AnalysisState) :
    (run_workflow pr co s).errors = s.errors ++ taggedErrors pr := by
  cases hb : (evaluate co.eval_available co.eval_call).needs_improvement
  · rw [run_workflow_complete pr co s hb, runToEvaluation_errors]
  · rw [run_workflow_improve pr co s hb,
      (improvement_node_frame _).2.2.2.2.2.2.2.2.1, runToEvaluation_errors]

theorem run_workflow_slots (pr : ProducerResults) (co : CollabOutcomes)
    (s : AnalysisState) :
    (run_workflow pr co s).market_data = some pr.market ∧
    (run_workflow pr co s).technical_analysis = some pr.technical ∧
    (run_workflow pr co s).quantitative_analysis = some pr.quantitative ∧
    (run_workflow pr co s).sentiment_analysis = some pr.sentiment ∧
    (run_workflow pr co s).sector_analysis = some pr.sector ∧
    (run_workflow pr co s).forecast_analysis = some pr.forecast := by
  have hs := runToEvaluation_slots pr co s
  cases hb : (evaluate co.eval_available co.eval_call).needs_improvement
  · rw [run_workflow_complete pr co s hb]
    exact hs
  · rw [run_workflow_improve pr co s hb]
    have hf := improvement_node_frame (runToEvaluation pr co s)
    exact ⟨hf.1.trans hs.1, hf.2.1.trans hs.2.1, hf.2.2.1.trans hs.2.2.1,
      hf.2.2.2.1.trans hs.2.2.2.1, hf.2.2.2.2.1.trans hs.2.2.2.2.1,
      hf.2.2.2.2.2.1.trans hs.2.2.2.2.2⟩

theorem run_workflow_synthesis (pr : ProducerResults) (co : CollabOutcomes)
    (s : AnalysisState) :
    (run_workflow pr co s).synthesis =
      some (synthesize (producersChain pr s)).toDict := by
  cases hb : (evaluate co.eval_available co.eval_call).needs_improvement
  · rw [run_workflow_complete pr co s hb]
    exact runToEvaluation_synthesis pr co s
  · rw [run_workflow_improve pr co s hb]
    exact ((improvement_node_frame _).2.2.2.2.2.2.1).trans
      (runToEvaluation_synthesis pr co s)

theorem taggedErrors_length (pr : ProducerResults) :
    (taggedErrors pr).length = failCount pr := by
  obtain ⟨⟨me, mp, mm⟩, ⟨te, tt, tr⟩, ⟨qe⟩, ⟨se, ss⟩, ⟨ce⟩, ⟨fe, fp, fc⟩⟩ := pr
  cases me <;> cases te <;> cases qe <;> cases se <;> cases ce <;> cases fe <;>
    simp [taggedErrors, optTag, failCount]

theorem taggedErrors_single (pr : ProducerResults) (h : failCount pr = 1) :
    (∀ e, pr.market.error = some e → taggedErrors pr = ["Market Data: " ++ e]) ∧
    (∀ e, pr.technical.error = some e → taggedErrors pr = ["Technical: " ++ e]) ∧
    (∀ e, pr.quantitative.error = some e →
      taggedErrors pr = ["Quantitative: " ++ e]) ∧
    (∀ e, pr.sentiment.error = some e → taggedErrors pr = ["Sentiment: " ++ e]) ∧
    (∀ e, pr.sector.error = some e → taggedErrors pr = ["Sector: " ++ e]) ∧
    (∀ e, pr.forecast.error = some e → taggedErrors pr = ["Forecast: " ++ e]) := by
  obtain ⟨⟨me, mp, mm⟩, ⟨te, tt, tr⟩, ⟨qe⟩, ⟨se, ss⟩, ⟨ce⟩, ⟨fe, fp, fc⟩⟩ := pr
  cases me <;> cases te <;> cases qe <;> cases se <;> cases ce <;> cases fe <;>
    simp_all [taggedErrors, optTag, failCount]

/-! ## The claims -/

/-- Claim C1, counterexample: it is NOT true that all four scorecard
components produced by Synthesis lie in [0,1] regardless of producer
inputs — a sentiment slot carrying the out-of-range aggregate score 1.5
is copied through unclamped (lines 140–147 never clamp, and lines
164–166 cap only fundamental and technical). -/
theorem c1_counterexample :
    ¬ (∀ s : AnalysisState,
        (0 ≤ (synthesize s).fundamental_score ∧
          (synthesize s).fundamental_score ≤ 1) ∧
        (0 ≤ (synthesize s).technical_score ∧
          (synthesize s).technical_score ≤ 1) ∧
        (0 ≤ (synthesize s).sentiment_score ∧
          (synthesize s).sentiment_score ≤ 1) ∧
        (0 ≤ (synthesize s).forecast_score ∧
          (synthesize s).forecast_score ≤ 1)) := by
  intro hall
  have hs := (hall { baseState with
    sentiment_analysis :=
      some { error := none, sentiment_score := some 1.5 } }).2.2.1.2
  have hv : (synthesize { baseState with
      sentiment_analysis :=
        some { error := none, sentiment_score := some 1.5 } }).sentiment_score =
      1.5 := by
    rw [synthesize_sentiment, processSentiment_score _ _ rfl]
    rfl
  rw [hv] at hs
  norm_num at hs

/-- Claim C1 (amended): for every run record, the fundamental, technical
and forecast component scores produced by Synthesis lie in [0,1]
regardless of producer inputs; the sentiment component is copied through
unclamped from the sentiment slot and may lie outside [0,1]. -/
theorem c1_theorem (s : AnalysisState) :
    (0 ≤ (synthesize s).fundamental_score ∧
      (synthesize s).fundamental_score ≤ 1) ∧
    (0 ≤ (synthesize s).technical_score ∧
      (synthesize s).technical_score ≤ 1) ∧
    (0 ≤ (synthesize s).forecast_score ∧
      (synthesize s).forecast_score ≤ 1) := by
  refine ⟨⟨?_, ?_⟩, ⟨?_, ?_⟩, ?_, ?_⟩
  · rw [synthesize_fundamental]
    exact le_max_left _ _
  · rw [synthesize_fundamental]
    exact max_le (by norm_num) (min_le_left _ _)
  · rw [synthesize_technical]
    exact le_max_left _ _
  · rw [synthesize_technical]
    exact max_le (by norm_num) (min_le_left _ _)
  · rcases synthesize_forecast_cases s with h | h | h <;> rw [h] <;> norm_num
  · rcases synthesize_forecast_cases s with h | h | h <;> rw [h] <;> norm_num

/-- Claim C2: the Recommendation Engine computes the composite as
fundamental×0.30 + technical×0.25 + sentiment×0.15 + forecast×0.30 and
classifies it by non-overlapping thresholds evaluated high to low:
>0.70 STRONG BUY, >0.60 BUY, >0.45 HOLD, >0.35 SELL, else STRONG SELL. -/
theorem c2_theorem (a : Bool) (g : GeminiCall) (s : AnalysisState)
    (d : SynthDict) (h : s.synthesis = some d) :
    (recommendation_node a g s).recommendation.map (fun r => r.overall_score) =
      some (d.fundamental_score.getD 0.5 * 0.30 +
        d.technical_score.getD 0.5 * 0.25 +
        d.sentiment_score.getD 0.5 * 0.15 +
        d.forecast_score.getD 0.5 * 0.30) ∧
    ((0.70 : ℚ) < overallScore d →
      (recommendation_node a g s).recommendation.map
        (fun r => r.recommendation) = some "STRONG BUY") ∧
    ((0.60 : ℚ) < overallScore d ∧ overallScore d ≤ 0.70 →
      (recommendation_node a g s).recommendation.map
        (fun r => r.recommendation) = some "BUY") ∧
    ((0.45 : ℚ) < overallScore d ∧ overallScore d ≤ 0.60 →
      (recommendation_node a g s).recommendation.map
        (fun r => r.recommendation) = some "HOLD") ∧
    ((0.35 : ℚ) < overallScore d ∧ overallScore d ≤ 0.45 →
      (recommendation_node a g s).recommendation.map
        (fun r => r.recommendation) = some "SELL") ∧
    (overallScore d ≤ (0.35 : ℚ) →
      (recommendation_node a g s).recommendation.map
        (fun r => r.recommendation) = some "STRONG SELL") := by
  have hov : s.synthesis.getD {} = d := by rw [h]; rfl
  refine ⟨?_, fun hc => ?_, fun hc => ?_, fun hc => ?_, fun hc => ?_,
    fun hc => ?_⟩
  · rw [recommendation_node_overall, hov]
    rfl
  · rw [recommendation_node_class, hov, (classifyScore_spec _).1 hc]
  · rw [recommendation_node_class, hov, (classifyScore_spec _).2.1 hc]
  · rw [recommendation_node_class, hov, (classifyScore_spec _).2.2.1 hc]
  · rw [recommendation_node_class, hov, (classifyScore_spec _).2.2.2.1 hc]
  · rw [recommendation_node_class, hov, (classifyScore_spec _).2.2.2.2 hc]

/-- Claim C2, witness: composite 0.75 yields STRONG BUY, 0.50 yields
HOLD, 0.20 yields STRONG SELL, via `c2_theorem` at concrete
scorecards. -/
theorem c2_witness :
    (recommendation_node false (.ok "")
        { baseState with synthesis := some (synthAll 0.75) }).recommendation.map
        (fun r => r.overall_score) = some 0.75 ∧
    (recommendation_node false (.ok "")
        { baseState with synthesis := some (synthAll 0.75) }).recommendation.map
        (fun r => r.recommendation) = some "STRONG BUY" ∧
    (recommendation_node false (.ok "")
        { baseState with synthesis := some (synthAll 0.5) }).recommendation.map
        (fun r => r.recommendation) = some "HOLD" ∧
    (recommendation_node false (.ok "")
        { baseState with synthesis := some (synthAll 0.2) }).recommendation.map
        (fun r => r.recommendation) = some "STRONG SELL" := by
  have h75 := c2_theorem false (.ok "")
    { baseState with synthesis := some (synthAll 0.75) } (synthAll 0.75) rfl
  have h50 := c2_theorem false (.ok "")
    { baseState with synthesis := some (synthAll 0.5) } (synthAll 0.5) rfl
  have h20 := c2_theorem false (.ok "")
    { baseState with synthesis := some (synthAll 0.2) } (synthAll 0.2) rfl
  refine ⟨?_, ?_, ?_, ?_⟩
  · rw [h75.1]
    norm_num [synthAll]
  · exact h75.2.1 (by norm_num [overallScore, synthAll])
  · exact h50.2.2.2.1 (by norm_num [overallScore, synthAll])
  · exact h20.2.2.2.2.2 (by norm_num [overallScore, synthAll])

theorem run_workflow_rec_fields (pr : ProducerResults) (co : CollabOutcomes)
    (s : AnalysisState) :
    (run_workflow pr co s).recommendation.map (fun r => r.overall_score) =
      some (overallScore (synthesize (producersChain pr s)).toDict) ∧
    (run_workflow pr co s).recommendation.map (fun r => r.recommendation) =
      some (classifyScore (overallScore (synthesize (producersChain pr s)).toDict)) ∧
    (run_workflow pr co s).recommendation.map (fun r => r.risk_level) =
      some (riskLevelFor
        ((synthesize (producersChain pr s)).toDict.risk_factors.getD []).length) ∧
    (run_workflow pr co s).recommendation.map (fun r => r.investment_horizon) =
      some (horizonFor (overallScore (synthesize (producersChain pr s)).toDict)
        (riskLevelFor
          ((synthesize (producersChain pr s)).toDict.risk_factors.getD []).length)) := by
  cases hb : (evaluate co.eval_available co.eval_call).needs_improvement
  · rw [run_workflow_complete pr co s hb]
    exact ⟨rfl, rfl, rfl, rfl⟩
  · rw [run_workflow_improve pr co s hb]
    obtain ⟨r, hr⟩ : ∃ r, (runToEvaluation pr co s).recommendation = some r :=
      ⟨_, rfl⟩
    have hv1 : (runToEvaluation pr co s).recommendation.map
        (fun x => x.overall_score) =
        some (overallScore (synthesize (producersChain pr s)).toDict) := rfl
    have hv2 : (runToEvaluation pr co s).recommendation.map
        (fun x => x.recommendation) =
        some (classifyScore
          (overallScore (synthesize (producersChain pr s)).toDict)) := rfl
    have hv3 : (runToEvaluation pr co s).recommendation.map
        (fun x => x.risk_level) =
        some (riskLevelFor
          ((synthesize (producersChain pr s)).toDict.risk_factors.getD
            []).length) := rfl
    have hv4 : (runToEvaluation pr co s).recommendation.map
        (fun x => x.investment_horizon) =
        some (horizonFor (overallScore (synthesize (producersChain pr s)).toDict)
          (riskLevelFor
            ((synthesize (producersChain pr s)).toDict.risk_factors.getD
              []).length)) := rfl
    rw [hr] at hv1 hv2 hv3 hv4
    rw [improvement_node_rec_some _ _ hr]
    exact ⟨hv1, hv2, hv3, hv4⟩

/-- Claim C6: when all six producer slots carry failure markers,
Synthesis returns all four scores at the neutral 0.5 with empty
narrative lists, and Recommendation yields class HOLD (composite 0.5),
risk level LOW and the short-or-avoid horizon (the source strings are
"HOLD", "LOW", "Short-term or avoid"). -/
theorem c6_theorem (pr : ProducerResults) (co : CollabOutcomes)
    (sym ts : String)
    (h1 : pr.market.error.isSome) (h2 : pr.technical.error.isSome)
    (h3 : pr.quantitative.error.isSome) (h4 : pr.sentiment.error.isSome)
    (h5 : pr.sector.error.isSome) (h6 : pr.forecast.error.isSome) :
    (run_workflow pr co (initial_state sym ts)).synthesis =
      some initScorecard.toDict ∧
    (run_workflow pr co (initial_state sym ts)).recommendation.map
      (fun r => r.overall_score) = some 0.5 ∧
    (run_workflow pr co (initial_state sym ts)).recommendation.map
      (fun r => r.recommendation) = some "HOLD" ∧
    (run_workflow pr co (initial_state sym ts)).recommendation.map
      (fun r => r.risk_level) = some "LOW" ∧
    (run_workflow pr co (initial_state sym ts)).recommendation.map
      (fun r => r.investment_horizon) = some "Short-term or avoid" := by
  have hsyn : synthesize (producersChain pr (initial_state sym ts)) =
      initScorecard := by
    unfold synthesize
    rw [producersChain_eq]
    show capScores
      (processForecast pr.forecast
        (processSentiment pr.sentiment
          (processTechnical pr.technical
            (processMarket pr.market initScorecard)))) = initScorecard
    rw [processMarket_error _ _ h1, processTechnical_error _ _ h2,
      processSentiment_error _ _ h4, processForecast_error _ _ h6]
    simp only [capScores, initScorecard]
    norm_num
  have hover : overallScore initScorecard.toDict = 0.5 := by
    norm_num [overallScore, initScorecard, Scorecard.toDict]
  have hrisk : ((initScorecard.toDict).risk_factors.getD []).length = 0 := rfl
  have hf := run_workflow_rec_fields pr co (initial_state sym ts)
  refine ⟨?_, ?_, ?_, ?_, ?_⟩
  · rw [run_workflow_synthesis, hsyn]
  · rw [hf.1, hsyn, hover]
  · rw [hf.2.1, hsyn, hover]
    norm_num [classifyScore]
  · rw [hf.2.2.1, hsyn, hrisk]
    norm_num [riskLevelFor]
  · rw [hf.2.2.2, hsyn, hover, hrisk]
    norm_num [horizonFor, riskLevelFor]

/-- Claim C6, witness: `c6_theorem` at six concrete failing producers
and absent collaborators. -/
theorem c6_witness :
    (run_workflow allFailProducers quietCollab
      (initial_state "AAPL" sampleTs)).synthesis = some initScorecard.toDict ∧
    (run_workflow allFailProducers quietCollab
      (initial_state "AAPL" sampleTs)).recommendation.map
      (fun r => r.overall_score) = some 0.5 ∧
    (run_workflow allFailProducers quietCollab
      (initial_state "AAPL" sampleTs)).recommendation.map
      (fun r => r.recommendation) = some "HOLD" ∧
    (run_workflow allFailProducers quietCollab
      (initial_state "AAPL" sampleTs)).recommendation.map
      (fun r => r.risk_level) = some "LOW" ∧
    (run_workflow allFailProducers quietCollab
      (initial_state "AAPL" sampleTs)).recommendation.map
      (fun r => r.investment_horizon) = some "Short-term or avoid" :=
  c6_theorem allFailProducers quietCollab "AAPL" sampleTs rfl rfl rfl rfl rfl rfl

/-- Claim C10 (implicit): the Recommendation Engine is total over a
missing or partial scorecard — every missing component score defaults to
0.5 in the composite, and with the synthesis slot absent (or an empty
synthesis dict) the composite is exactly 0.5 and the result is HOLD with
risk level LOW. -/
theorem c10_theorem (a : Bool) (g : GeminiCall) (s : AnalysisState) :
    (s.synthesis = none ∨ s.synthesis = some ({} : SynthDict) →
      (recommendation_node a g s).recommendation.map
        (fun r => r.overall_score) = some 0.5 ∧
      (recommendation_node a g s).recommendation.map
        (fun r => r.recommendation) = some "HOLD" ∧
      (recommendation_node a g s).recommendation.map
        (fun r => r.risk_level) = some "LOW") ∧
    (∀ d : SynthDict, s.synthesis = some d →
      (recommendation_node a g s).recommendation.map
        (fun r => r.overall_score) =
        some (d.fundamental_score.getD 0.5 * 0.30 +
          d.technical_score.getD 0.5 * 0.25 +
          d.sentiment_score.getD 0.5 * 0.15 +
          d.forecast_score.getD 0.5 * 0.30)) := by
  constructor
  · intro h
    have hov : s.synthesis.getD {} = ({} : SynthDict) := by
      rcases h with h | h <;> rw [h] <;> rfl
    have h05 : overallScore ({} : SynthDict) = 0.5 := by
      norm_num [overallScore]
    refine ⟨?_, ?_, ?_⟩
    · rw [recommendation_node_overall, hov, h05]
    · rw [recommendation_node_class, hov, h05]
      norm_num [classifyScore]
    · rw [recommendation_node_risk, hov]
      norm_num [riskLevelFor]
  · intro d hd
    have hov : s.synthesis.getD {} = d := by rw [hd]; rfl
    rw [recommendation_node_overall, hov]
    rfl

/-- Claim C10, witness: `c10_theorem` at the freshly initialized state,
whose synthesis slot is absent. -/
theorem c10_witness :
    (recommendation_node false (.ok "") baseState).recommendation.map
      (fun r => r.overall_score) = some 0.5 ∧
    (recommendation_node false (.ok "") baseState).recommendation.map
      (fun r => r.recommendation) = some "HOLD" ∧
    (recommendation_node false (.ok "") baseState).recommendation.map
      (fun r => r.risk_level) = some "LOW" :=
  (c10_theorem false (.ok "") baseState).1 (Or.inl rfl)

theorem run_workflow_evaluation (pr : ProducerResults) (co : CollabOutcomes)
    (s : AnalysisState) :
    (run_workflow pr co s).evaluation =
      some (evaluate co.eval_available co.eval_call) := by
  cases hb : (evaluate co.eval_available co.eval_call).needs_improvement
  · rw [run_workflow_complete pr co s hb]
    rfl
  · rw [run_workflow_improve pr co s hb,
      (improvement_node_frame _).2.2.2.2.2.2.2.1]
    rfl

/-- Claim C3: whenever the external Evaluator is unavailable, raises, or
returns output with no parseable JSON, the Quality Gate yields
quality_score 0.5, needs_improvement false and empty improvement areas
instead of failing, and the run goes from evaluation straight to the
terminal state without entering the Improvement stage. -/
theorem c3_theorem (pr : ProducerResults) (co : CollabOutcomes)
    (sym ts : String)
    (h : evalDegraded co.eval_available co.eval_call) :
    (evaluate co.eval_available co.eval_call).quality_score = 0.5 ∧
    (evaluate co.eval_available co.eval_call).needs_improvement = false ∧
    (evaluate co.eval_available co.eval_call).improvement_areas = [] ∧
    should_improve (runToEvaluation pr co (initial_state sym ts)) =
      "complete" ∧
    run_workflow pr co (initial_state sym ts) =
      runToEvaluation pr co (initial_state sym ts) ∧
    (run_workflow pr co (initial_state sym ts)).workflow_stage =
      "evaluation_complete" := by
  obtain ⟨hq, hn, ha⟩ := evaluate_degraded_defaults _ _ h
  have hsi : should_improve (runToEvaluation pr co (initial_state sym ts)) =
      "complete" := by
    unfold should_improve
    rw [runToEvaluation_needs, hn]
    simp
  have hcomp := run_workflow_complete pr co (initial_state sym ts) hn
  refine ⟨hq, hn, ha, hsi, hcomp, ?_⟩
  rw [hcomp]
  rfl

/-- Claim C3, witness: `c3_theorem` with the evaluator unavailable. -/
theorem c3_witness :
    (evaluate quietCollab.eval_available quietCollab.eval_call).quality_score =
      0.5 ∧
    (evaluate quietCollab.eval_available
      quietCollab.eval_call).needs_improvement = false ∧
    (evaluate quietCollab.eval_available
      quietCollab.eval_call).improvement_areas = [] ∧
    should_improve (runToEvaluation okProducers quietCollab
      (initial_state "AAPL" sampleTs)) = "complete" ∧
    run_workflow okProducers quietCollab (initial_state "AAPL" sampleTs) =
      runToEvaluation okProducers quietCollab
        (initial_state "AAPL" sampleTs) ∧
    (run_workflow okProducers quietCollab
      (initial_state "AAPL" sampleTs)).workflow_stage =
      "evaluation_complete" :=
  c3_theorem okProducers quietCollab "AAPL" sampleTs (Or.inl rfl)

/-- Claim C4: when the Quality Gate reports needs_improvement with a
list of improvement areas, the Improvement stage only marks the existing
recommendation improved and attaches that list (same length); every
numeric recommendation field and every other run-record slot is
unchanged from the pre-improvement state, and no producer is re-invoked
(the improvement node consumes no producer result). -/
theorem c4_theorem (pr : ProducerResults) (co : CollabOutcomes)
    (sym ts : String) (j : EvalJson) (areas : List String)
    (ha : co.eval_available = true)
    (hc : co.eval_call = .returned (some j))
    (hn : j.needs_improvement = some true)
    (har : j.improvement_areas = some areas) :
    run_workflow pr co (initial_state sym ts) =
      improvement_node (runToEvaluation pr co (initial_state sym ts)) ∧
    (run_workflow pr co (initial_state sym ts)).recommendation.map
      (fun r => r.improved) = some (some true) ∧
    (run_workflow pr co (initial_state sym ts)).recommendation.map
      (fun r => r.improvement_areas_addressed) = some (some areas) ∧
    (run_workflow pr co (initial_state sym ts)).recommendation.map
      (fun r => (r.improvement_areas_addressed.getD []).length) =
      some areas.length ∧
    (run_workflow pr co (initial_state sym ts)).recommendation.map
        (fun r => r.overall_score) =
      (runToEvaluation pr co (initial_state sym ts)).recommendation.map
        (fun r => r.overall_score) ∧
    (run_workflow pr co (initial_state sym ts)).recommendation.map
        (fun r => r.component_scores) =
      (runToEvaluation pr co (initial_state sym ts)).recommendation.map
        (fun r => r.component_scores) ∧
    (run_workflow pr co (initial_state sym ts)).recommendation.map
        (fun r => r.recommendation) =
      (runToEvaluation pr co (initial_state sym ts)).recommendation.map
        (fun r => r.recommendation) ∧
    (run_workflow pr co (initial_state sym ts)).recommendation.map
        (fun r => r.risk_level) =
      (runToEvaluation pr co (initial_state sym ts)).recommendation.map
        (fun r => r.risk_level) ∧
    (run_workflow pr co (initial_state sym ts)).recommendation.map
        (fun r => r.investment_horizon) =
      (runToEvaluation pr co (initial_state sym ts)).recommendation.map
        (fun r => r.investment_horizon) ∧
    (run_workflow pr co (initial_state sym ts)).recommendation.map
        (fun r => r.ai_insights) =
      (runToEvaluation pr co (initial_state sym ts)).recommendation.map
        (fun r => r.ai_insights) ∧
    (run_workflow pr co (initial_state sym ts)).market_data =
      (runToEvaluation pr co (initial_state sym ts)).market_data ∧
    (run_workflow pr co (initial_state sym ts)).technical_analysis =
      (runToEvaluation pr co (initial_state sym ts)).technical_analysis ∧
    (run_workflow pr co (initial_state sym ts)).quantitative_analysis =
      (runToEvaluation pr co (initial_state sym ts)).quantitative_analysis ∧
    (run_workflow pr co (initial_state sym ts)).sentiment_analysis =
      (runToEvaluation pr co (initial_state sym ts)).sentiment_analysis ∧
    (run_workflow pr co (initial_state sym ts)).sector_analysis =
      (runToEvaluation pr co (initial_state sym ts)).sector_analysis ∧
    (run_workflow pr co (initial_state sym ts)).forecast_analysis =
      (runToEvaluation pr co (initial_state sym ts)).forecast_analysis ∧
    (run_workflow pr co (initial_state sym ts)).synthesis =
      (runToEvaluation pr co (initial_state sym ts)).synthesis ∧
    (run_workflow pr co (initial_state sym ts)).evaluation =
      (runToEvaluation pr co (initial_state sym ts)).evaluation ∧
    (run_workflow pr co (initial_state sym ts)).errors =
      (runToEvaluation pr co (initial_state sym ts)).errors ∧
    (run_workflow pr co (initial_state sym ts)).quality_score =
      (runToEvaluation pr co (initial_state sym ts)).quality_score := by
  have hev : (evaluate co.eval_available co.eval_call).needs_improvement =
      true := by
    rw [ha, hc]
    simp [evaluate, extract_json, hn]
  have hareas : (evaluate co.eval_available co.eval_call).improvement_areas =
      areas := by
    rw [ha, hc]
    simp [evaluate, extract_json, har]
  have himp := run_workflow_improve pr co (initial_state sym ts) hev
  have hs9areas : (runToEvaluation pr co
      (initial_state sym ts)).improvement_areas = areas := by
    rw [runToEvaluation_areas, hareas]
  obtain ⟨r, hr⟩ : ∃ r,
      (runToEvaluation pr co (initial_state sym ts)).recommendation = some r :=
    ⟨_, rfl⟩
  have hrec : (run_workflow pr co (initial_state sym ts)).recommendation =
      some (annotateRecommendation r areas) := by
    rw [himp, improvement_node_rec_some _ _ hr, hs9areas]
  have hframe := improvement_node_frame
    (runToEvaluation pr co (initial_state sym ts))
  refine ⟨himp, ?_, ?_, ?_, ?_, ?_, ?_, ?_, ?_, ?_, ?_, ?_, ?_, ?_, ?_, ?_,
    ?_, ?_, ?_, ?_⟩ <;>
    first
    | (rw [hrec]; rfl)
    | (rw [hrec, hr]; rfl)
    | (rw [himp]
       first
       | exact hframe.1
       | exact hframe.2.1
       | exact hframe.2.2.1
       | exact hframe.2.2.2.1
       | exact hframe.2.2.2.2.1
       | exact hframe.2.2.2.2.2.1
       | exact hframe.2.2.2.2.2.2.1
       | exact hframe.2.2.2.2.2.2.2.1
       | exact hframe.2.2.2.2.2.2.2.2.1
       | exact hframe.2.2.2.2.2.2.2.2.2.1)

/-- Claim C4, witness: `c4_theorem` with an evaluator verdict carrying
two improvement areas; the attached list has length 2 and the numeric
fields match the pre-improvement record. -/
theorem c4_witness :
    run_workflow okProducers improveCollab (initial_state "AAPL" sampleTs) =
      improvement_node (runToEvaluation okProducers improveCollab
        (initial_state "AAPL" sampleTs)) ∧
    (run_workflow okProducers improveCollab
      (initial_state "AAPL" sampleTs)).recommendation.map
      (fun r => r.improved) = some (some true) ∧
    (run_workflow okProducers improveCollab
      (initial_state "AAPL" sampleTs)).recommendation.map
      (fun r => (r.improvement_areas_addressed.getD []).length) = some 2 ∧
    (run_workflow okProducers improveCollab
      (initial_state "AAPL" sampleTs)).recommendation.map
        (fun r => r.overall_score) =
      (runToEvaluation okProducers improveCollab
        (initial_state "AAPL" sampleTs)).recommendation.map
        (fun r => r.overall_score) := by
  have h := c4_theorem okProducers improveCollab "AAPL" sampleTs improveJson
    ["depth", "sources"] rfl rfl rfl rfl
  exact ⟨h.1, h.2.1, h.2.2.2.1, h.2.2.2.2.1⟩

/-- Claim C5: when exactly one of the six producer results carries a
failure marker, the run still executes every remaining stage to the
terminal state, all slots (including the failing one) hold the returned
results, and the errors list contains exactly one entry, tagged with the
failing stage's name. -/
theorem c5_theorem (pr : ProducerResults) (co : CollabOutcomes)
    (sym ts : String) (h : failCount pr = 1) :
    (run_workflow pr co (initial_state sym ts)).errors = taggedErrors pr ∧
    (run_workflow pr co (initial_state sym ts)).errors.length = 1 ∧
    (∀ e, pr.market.error = some e →
      (run_workflow pr co (initial_state sym ts)).errors =
        ["Market Data: " ++ e]) ∧
    (∀ e, pr.technical.error = some e →
      (run_workflow pr co (initial_state sym ts)).errors =
        ["Technical: " ++ e]) ∧
    (∀ e, pr.quantitative.error = some e →
      (run_workflow pr co (initial_state sym ts)).errors =
        ["Quantitative: " ++ e]) ∧
    (∀ e, pr.sentiment.error = some e →
      (run_workflow pr co (initial_state sym ts)).errors =
        ["Sentiment: " ++ e]) ∧
    (∀ e, pr.sector.error = some e →
      (run_workflow pr co (initial_state sym ts)).errors =
        ["Sector: " ++ e]) ∧
    (∀ e, pr.forecast.error = some e →
      (run_workflow pr co (initial_state sym ts)).errors =
        ["Forecast: " ++ e]) ∧
    (run_workflow pr co (initial_state sym ts)).market_data =
      some pr.market ∧
    (run_workflow pr co (initial_state sym ts)).technical_analysis =
      some pr.technical ∧
    (run_workflow pr co (initial_state sym ts)).quantitative_analysis =
      some pr.quantitative ∧
    (run_workflow pr co (initial_state sym ts)).sentiment_analysis =
      some pr.sentiment ∧
    (run_workflow pr co (initial_state sym ts)).sector_analysis =
      some pr.sector ∧
    (run_workflow pr co (initial_state sym ts)).forecast_analysis =
      some pr.forecast ∧
    (run_workflow pr co (initial_state sym ts)).synthesis.isSome ∧
    (run_workflow pr co (initial_state sym ts)).recommendation.isSome ∧
    (run_workflow pr co (initial_state sym ts)).evaluation.isSome ∧
    ((run_workflow pr co (initial_state sym ts)).workflow_stage =
        "evaluation_complete" ∨
      (run_workflow pr co (initial_state sym ts)).workflow_stage =
        "improvement_complete") := by
  have herr : (run_workflow pr co (initial_state sym ts)).errors =
      taggedErrors pr := by
    rw [run_workflow_errors]
    simp [initial_state]
  have hsingle := taggedErrors_single pr h
  have hslots := run_workflow_slots pr co (initial_state sym ts)
  have hsynS : (run_workflow pr co (initial_state sym ts)).synthesis.isSome :=
    by rw [run_workflow_synthesis]; rfl
  have hrecS :
      (run_workflow pr co (initial_state sym ts)).recommendation.isSome := by
    have h1 := (run_workflow_rec_fields pr co (initial_state sym ts)).1
    rcases hx : (run_workflow pr co (initial_state sym ts)).recommendation with
      _ | r
    · rw [hx] at h1
      simp at h1
    · rfl
  have hevalS :
      (run_workflow pr co (initial_state sym ts)).evaluation.isSome := by
    rw [run_workflow_evaluation]
    rfl
  exact ⟨herr, by rw [herr, taggedErrors_length, h],
    fun e he => herr.trans (hsingle.1 e he),
    fun e he => herr.trans (hsingle.2.1 e he),
    fun e he => herr.trans (hsingle.2.2.1 e he),
    fun e he => herr.trans (hsingle.2.2.2.1 e he),
    fun e he => herr.trans (hsingle.2.2.2.2.1 e he),
    fun e he => herr.trans (hsingle.2.2.2.2.2 e he),
    hslots.1, hslots.2.1, hslots.2.2.1, hslots.2.2.2.1, hslots.2.2.2.2.1,
    hslots.2.2.2.2.2, hsynS, hrecS, hevalS,
    run_workflow_stage pr co (initial_state sym ts)⟩

/-- Claim C5, witness: `c5_theorem` with only the market-data producer
failing. -/
theorem c5_witness :
    (run_workflow marketFailProducers quietCollab
      (initial_state "AAPL" sampleTs)).errors =
      ["Market Data: " ++ "API timeout"] ∧
    (run_workflow marketFailProducers quietCollab
      (initial_state "AAPL" sampleTs)).errors.length = 1 ∧
    ((run_workflow marketFailProducers quietCollab
        (initial_state "AAPL" sampleTs)).workflow_stage =
        "evaluation_complete" ∨
      (run_workflow marketFailProducers quietCollab
        (initial_state "AAPL" sampleTs)).workflow_stage =
        "improvement_complete") := by
  have h := c5_theorem marketFailProducers quietCollab "AAPL" sampleTs
    (by decide)
  exact ⟨h.2.2.1 "API timeout" rfl, h.2.1, h.2.2.2.2.2.2.2.2.2.2.2.2.2.2.2.2.2⟩

/-- Claim C7, counterexample: it is NOT true that the fundamental score
is incremented whenever the P/E ratio is below 15 — the code first
requires the ratio to be strictly positive (line 109), so a negative
P/E of −5 (below 15) leaves the score at the 0.5 baseline instead of
raising it to at least 0.7. -/
theorem c7_counterexample :
    ¬ (∀ (s : AnalysisState) (md : MarketData) (pe : ℚ),
        s.market_data = some md → md.error = none → md.pe_ratio = some pe →
        pe < 15 → (0.7 : ℚ) ≤ (synthesize s).fundamental_score) := by
  intro hall
  have hbad := hall negPeState negPeMarket (-5) rfl rfl rfl (by norm_num)
  have hv : (synthesize negPeState).fundamental_score = 0.5 := by
    rw [synthesize_fundamental]
    rw [show negPeState.market_data.getD {} = negPeMarket from rfl,
      processMarket_fundamental _ _ rfl]
    norm_num [peAdjust, marginAdjust, negPeMarket, initScorecard, min_def,
      max_def]
  rw [hv] at hbad
  norm_num at hbad

/-- Claim C7 (amended): when the market-fundamentals slot succeeded, the
fundamental score starts at 0.5, is raised by 0.2 with a strength
appended when the P/E ratio is positive and below 15, lowered by 0.2
with a risk factor appended when it is above 30, raised by 0.1 with a
strength appended when the profit margin exceeds 0.2, and finally
clamped to [0,1]. -/
theorem c7_theorem (s : AnalysisState) (md : MarketData)
    (h : s.market_data = some md) (he : md.error = none) :
    (synthesize s).fundamental_score =
      max 0 (min 1
        (0.5 + peAdjust md.pe_ratio + marginAdjust md.profit_margin)) ∧
    (∀ pe, md.pe_ratio = some pe → 0 < pe → pe < 15 →
      ("Attractive P/E ratio (" ++ pyFmt1 pe ++ ")") ∈
        (synthesize s).strengths) ∧
    (∀ pe, md.pe_ratio = some pe → 30 < pe →
      ("High P/E ratio (" ++ pyFmt1 pe ++ ")") ∈
        (synthesize s).risk_factors) ∧
    (∀ pm, md.profit_margin = some pm → 0.2 < pm →
      ("High profit margin (" ++ pyFmt1 (pm * 100) ++ "%)") ∈
        (synthesize s).strengths) := by
  have hslot : s.market_data.getD {} = md := by rw [h]; rfl
  refine ⟨?_, ?_, ?_, ?_⟩
  · rw [synthesize_fundamental, hslot, processMarket_fundamental md _ he]
    rfl
  · intro pe hpe h0 h15
    apply synthesize_strengths_mono
    rw [hslot]
    exact processMarket_pe_strength md initScorecard pe he hpe h0 h15
  · intro pe hpe h30
    apply synthesize_risk_mono
    rw [hslot]
    exact processMarket_pe_risk md initScorecard pe he hpe h30
  · intro pm hpm hm
    apply synthesize_strengths_mono
    rw [hslot]
    exact processMarket_margin_strength md initScorecard pm he hpm hm

/-- Claim C7, witness: `c7_theorem` at a success result with P/E 10 and
profit margin 0.25 — the score becomes 0.8 and both strengths appear. -/
theorem c7_witness :
    (synthesize cheapMarketState).fundamental_score = 0.8 ∧
    ("Attractive P/E ratio (" ++ pyFmt1 10 ++ ")") ∈
      (synthesize cheapMarketState).strengths ∧
    ("High profit margin (" ++ pyFmt1 ((0.25 : ℚ) * 100) ++ "%)") ∈
      (synthesize cheapMarketState).strengths := by
  have h := c7_theorem cheapMarketState cheapMarket rfl rfl
  refine ⟨?_, ?_, ?_⟩
  · rw [h.1]
    norm_num [peAdjust, marginAdjust, cheapMarket, min_def, max_def]
  · exact h.2.1 10 rfl (by norm_num) (by norm_num)
  · exact h.2.2.2 0.25 rfl (by norm_num)

/-- Claim C8, counterexample: it is NOT true that a failing insight call
leaves the insight text empty — when the generator is available but the
call raises, the text is the non-empty message
"Insights generation failed: ..." (insights.py line 69). -/
theorem c8_counterexample :
    ¬ (∀ (s : AnalysisState) (a : Bool) (g : GeminiCall),
        insightDegraded a g →
        (recommendation_node a g s).recommendation.map
          (fun r => r.ai_insights) = some "") := by
  intro hall
  have h := hall baseState true (.failed "boom") (Or.inr ⟨"boom", rfl⟩)
  rw [recommendation_node_insights] at h
  simp only [if_true] at h
  have hne : generate_insights true (.failed "boom") =
      "Insights generation failed: " ++ "boom" := rfl
  rw [hne] at h
  have : ("Insights generation failed: " ++ "boom" : String) ≠ "" := by decide
  exact this (Option.some.inj h)

/-- Claim C8 (amended): when the Insight Generator is unavailable the
insight text is the empty string; when it is available but the call
fails, the text is the failure message "Insights generation failed: …"
and no error is raised; in every case the insight call outcome leaves
all numeric recommendation fields (overall score, component scores,
class, risk level, horizon) unchanged. -/
theorem c8_theorem (s : AnalysisState) (a : Bool) (g : GeminiCall) :
    (a = false →
      (recommendation_node a g s).recommendation.map
        (fun r => r.ai_insights) = some "") ∧
    (∀ m, a = true → g = .failed m →
      (recommendation_node a g s).recommendation.map
        (fun r => r.ai_insights) =
        some ("Insights generation failed: " ++ m)) ∧
    (∀ (a2 : Bool) (g2 : GeminiCall),
      (recommendation_node a g s).recommendation.map
          (fun r => r.overall_score) =
        (recommendation_node a2 g2 s).recommendation.map
          (fun r => r.overall_score) ∧
      (recommendation_node a g s).recommendation.map
          (fun r => r.component_scores) =
        (recommendation_node a2 g2 s).recommendation.map
          (fun r => r.component_scores) ∧
      (recommendation_node a g s).recommendation.map
          (fun r => r.recommendation) =
        (recommendation_node a2 g2 s).recommendation.map
          (fun r => r.recommendation) ∧
      (recommendation_node a g s).recommendation.map
          (fun r => r.risk_level) =
        (recommendation_node a2 g2 s).recommendation.map
          (fun r => r.risk_level) ∧
      (recommendation_node a g s).recommendation.map
          (fun r => r.investment_horizon) =
        (recommendation_node a2 g2 s).recommendation.map
          (fun r => r.investment_horizon)) := by
  refine ⟨?_, ?_, ?_⟩
  · intro ha
    subst ha
    rw [recommendation_node_insights]
    simp
  · intro m ha hg
    subst ha
    subst hg
    rw [recommendation_node_insights]
    simp [generate_insights]
  · intro a2 g2
    exact ⟨(recommendation_node_overall a g s).trans
        (recommendation_node_overall a2 g2 s).symm,
      (recommendation_node_components a g s).trans
        (recommendation_node_components a2 g2 s).symm,
      (recommendation_node_class a g s).trans
        (recommendation_node_class a2 g2 s).symm,
      (recommendation_node_risk a g s).trans
        (recommendation_node_risk a2 g2 s).symm,
      (recommendation_node_horizon a g s).trans
        (recommendation_node_horizon a2 g2 s).symm⟩

/-- Claim C8, witness: `c8_theorem` at an unavailable generator (empty
text) and a failing call (failure-message text), with the numeric
fields agreeing across both outcomes. -/
theorem c8_witness :
    (recommendation_node false (.ok "") baseState).recommendation.map
      (fun r => r.ai_insights) = some "" ∧
    (recommendation_node true (.failed "quota") baseState).recommendation.map
      (fun r => r.ai_insights) =
      some ("Insights generation failed: " ++ "quota") ∧
    (recommendation_node false (.ok "") baseState).recommendation.map
        (fun r => r.overall_score) =
      (recommendation_node true (.failed "quota") baseState).recommendation.map
        (fun r => r.overall_score) := by
  refine ⟨(c8_theorem baseState false (.ok "")).1 rfl,
    (c8_theorem baseState true (.failed "quota")).2.1 "quota" rfl rfl,
    ((c8_theorem baseState false (.ok "")).2.2 true (.failed "quota")).1⟩

/-- Claim C9: the orchestrator returns a minimal error report — exactly
the identifier, the error message and a timestamp — if and only if the
workflow execution raises an unexpected internal fault; otherwise the
caller receives the populated report built from the final state
(producer-reported domain failures do not raise: the node functions
absorb them into the state's errors list). -/
theorem c9_theorem (sym ts : String)
    (invoke : AnalysisState → Except String AnalysisState) :
    (∀ e, invoke (initial_state sym ts) = .error e →
      analyze_stock sym ts invoke =
        .err { error := e, symbol := sym, timestamp := ts }) ∧
    (∀ fs, invoke (initial_state sym ts) = .ok fs →
      analyze_stock sym ts invoke = .ok (buildReport sym fs)) ∧
    (∀ rep, analyze_stock sym ts invoke = .err rep →
      invoke (initial_state sym ts) = .error rep.error ∧
      rep.symbol = sym ∧ rep.timestamp = ts) := by
  refine ⟨fun e he => ?_, fun fs hf => ?_, fun rep hr => ?_⟩
  · unfold analyze_stock
    rw [he]
  · unfold analyze_stock
    rw [hf]
  · unfold analyze_stock at hr
    cases hi : invoke (initial_state sym ts) with
    | error e =>
      rw [hi] at hr
      injection hr with hrep
      subst hrep
      exact ⟨rfl, rfl, rfl⟩
    | ok fs =>
      rw [hi] at hr
      exact absurd hr (by simp)

/-- Claim C9, witness: `c9_theorem` at a raising execution (minimal
error report) and at a completing execution (populated report). -/
theorem c9_witness :
    analyze_stock "AAPL" sampleTs (fun _ => .error "boom") =
      .err { error := "boom", symbol := "AAPL", timestamp := sampleTs } ∧
    analyze_stock "AAPL" sampleTs (fun st => .ok st) =
      .ok (buildReport "AAPL" (initial_state "AAPL" sampleTs)) := by
  refine ⟨?_, ?_⟩
  · have h := c9_theorem "AAPL" sampleTs (fun _ => .error "boom")
    exact h.1 "boom" rfl
  · have h := c9_theorem "AAPL" sampleTs (fun st => .ok st)
    exact h.2.1 _ rfl

end FinAnalysis
